import Mathlib

/-!
Shallow embedding, in Lean 4, of the parts of the `tqec` compilation core that
the verified claims are about:

* the basis-normalizing circuit pass `ChangeBasisPass`
  (`src/tqec/plaquette/compilation/passes/basis_change.py`);
* the block and substitution builders `BaseBlockBuilder` /
  `BaseSubstitutionBuilder` (`src/tqec/compile/specs/library/base.py`).

Python code raising exceptions is embedded as functions returning
`Except PyError`; machine data (instruction names, qubit targets, plaquette
indices) is embedded with `String`, `Nat` and `Int`.  Helper types that the
repository imports from modules that are not part of the provided sources
(`tqec.computation.pipe`, `tqec.compile.specs.base`, the template library, ...)
are modelled from the specification document and carry a doc comment saying so.
-/

namespace Tqec

/-- Embeds `Basis` from `tqec/enums.py`: the X or Z stabilizer basis. -/
inductive Basis
  | X
  | Z
  deriving DecidableEq

/-- Modelled from the spec: the `ResetBasis` / `MeasurementBasis` enums of
`tqec.plaquette.enums` (module not under the provided sources).  The configured
target of `ChangeBasisPass` is either a reset basis or a measurement basis,
each carrying an X or Z basis value. -/
inductive PassBasis
  | resetB (b : Basis)
  | measB (b : Basis)
  deriving DecidableEq

/-- Modelled from the spec: the `instruction_name` property of
`ResetBasis`/`MeasurementBasis`, giving the stim instruction implementing a
reset or measurement in that basis. -/
def PassBasis.instructionName : PassBasis → String
  | .resetB .Z => "RZ"
  | .resetB .X => "RX"
  | .measB .Z => "MZ"
  | .measB .X => "MX"

/-- Embeds the data of a `stim.CircuitInstruction` that `ChangeBasisPass`
manipulates: the instruction name, its qubit targets and its numeric gate
arguments. -/
structure Instruction where
  name : String
  targets : List Nat
  gateArgs : List Int
  deriving DecidableEq

/-- A moment of a circuit: the instructions between two TICK markers. -/
abbrev CircuitMoment := List Instruction

/-- A circuit, organised by moments, as produced by
`iter_stim_circuit_without_repeat_by_moments`. -/
abbrev MomentCircuit := List CircuitMoment

/-- Modelled from the spec: `is_measurement_instruction` from
`tqec.circuit.instructions` (module not under the provided sources), following
stim gate naming: plain measurements and combined measurement-reset gates. -/
def isMeasurementInstruction (i : Instruction) : Bool :=
  i.name == "M" || i.name == "MX" || i.name == "MY" || i.name == "MZ" ||
  i.name == "MR" || i.name == "MRX" || i.name == "MRY" || i.name == "MRZ"

/-- Modelled from the spec: `is_reset_instruction` from
`tqec.circuit.instructions` (module not under the provided sources), following
stim gate naming: plain resets and combined measurement-reset gates. -/
def isResetInstruction (i : Instruction) : Bool :=
  i.name == "R" || i.name == "RX" || i.name == "RY" || i.name == "RZ" ||
  i.name == "MR" || i.name == "MRX" || i.name == "MRY" || i.name == "MRZ"

/-- Modelled from the spec: `is_combined_reset_and_measurement_instruction`
from `tqec.circuit.instructions` (module not under the provided sources):
the stim gates that both measure and reset. -/
def isCombinedInstruction (i : Instruction) : Bool :=
  i.name == "MR" || i.name == "MRX" || i.name == "MRY" || i.name == "MRZ"

/-- The exceptions the embedded code can raise: `TQECException` from
`tqec.exceptions`, Python `AssertionError` (from `assert` statements) and
Python `NotImplementedError`. -/
inductive PyError
  | tqecException (msg : String)
  | assertionError
  | notImplementedError (msg : String)
  deriving DecidableEq

/-- Whether an `Except` value is a success. -/
def exceptOk {α : Type} : Except PyError α → Bool
  | .ok _ => true
  | .error _ => false

instance {ε α : Type} [DecidableEq ε] [DecidableEq α] :
    DecidableEq (Except ε α) := fun x y =>
  match x, y with
  | .ok a, .ok b =>
    if h : a = b then isTrue (by rw [h])
    else isFalse (fun hh => h (Except.ok.inj hh))
  | .error a, .error b =>
    if h : a = b then isTrue (by rw [h])
    else isFalse (fun hh => h (Except.error.inj hh))
  | .ok _, .error _ => isFalse (fun hh => Except.noConfusion hh)
  | .error _, .ok _ => isFalse (fun hh => Except.noConfusion hh)

namespace ChangeBasisPass

/-- Embeds `ChangeBasisPass.change_reset_basis`: whether the configured target
is a reset basis. -/
def changeResetBasis : PassBasis → Bool
  | .resetB _ => true
  | .measB _ => false

/-- Embeds `ChangeBasisPass.change_measurement_basis`: whether the configured
target is a measurement basis. -/
def changeMeasurementBasis : PassBasis → Bool
  | .resetB _ => false
  | .measB _ => true

/-- Embeds `ChangeBasisPass.may_have_to_change`: measurement instructions are
candidates when the target is a measurement basis, reset instructions when it
is a reset basis. -/
def mayHaveToChange (t : PassBasis) (i : Instruction) : Bool :=
  if changeMeasurementBasis t then isMeasurementInstruction i
  else isResetInstruction i

/-- Embeds `ChangeBasisPass._get_instruction_basis`: maps the instruction name
to its native basis, raising a `TQECException` for any name outside
M, MZ, MX, R, RZ, RX. -/
def getInstructionBasis (i : Instruction) : Except PyError PassBasis :=
  if i.name == "M" || i.name == "MZ" then .ok (.measB .Z)
  else if i.name == "MX" then .ok (.measB .X)
  else if i.name == "R" || i.name == "RZ" then .ok (.resetB .Z)
  else if i.name == "RX" then .ok (.resetB .X)
  else .error (.tqecException
    ("Found a " ++ i.name ++ " instruction, that is not supported."))

/-- The two circuits accumulated while scanning one moment:
`current` embeds `current_moment` and `basisChange` embeds
`basis_change_moment`. -/
structure MomentAcc where
  current : List Instruction
  basisChange : List Instruction
  deriving DecidableEq

/-- Embeds one iteration of the instruction loop in
`ChangeBasisPass._with_basis_changed`: untouched instructions are appended to
the current moment, combined reset-measurement candidates raise, and
candidates in the wrong basis are replaced by the target-basis instruction
while an H on the same targets is appended to the basis-change moment. -/
def processInstruction (t : PassBasis) (acc : MomentAcc) (i : Instruction) :
    Except PyError MomentAcc :=
  if ¬ mayHaveToChange t i then
    .ok { acc with current := acc.current ++ [i] }
  else if isCombinedInstruction i then
    .error (.tqecException
      ("Combined reset and measurement instructions are not supported. Found "
        ++ i.name ++ "."))
  else
    match getInstructionBasis i with
    | .error e => .error e
    | .ok b =>
      if b = t then
        .ok { acc with current := acc.current ++ [i] }
      else
        .ok { current := acc.current ++
                [{ name := t.instructionName, targets := i.targets,
                   gateArgs := i.gateArgs }],
              basisChange := acc.basisChange ++
                [{ name := "H", targets := i.targets, gateArgs := [] }] }

/-- The instruction loop of `ChangeBasisPass._with_basis_changed` over one
moment, threading the accumulated current and basis-change moments. -/
def processMomentGo (t : PassBasis) (acc : MomentAcc) :
    List Instruction → Except PyError MomentAcc
  | [] => .ok acc
  | i :: rest =>
    match processInstruction t acc i with
    | .error e => .error e
    | .ok acc₂ => processMomentGo t acc₂ rest

/-- Scan of one input moment, starting from two empty accumulated moments. -/
def processMoment (t : PassBasis) (m : CircuitMoment) :
    Except PyError MomentAcc :=
  processMomentGo t { current := [], basisChange := [] } m

/-- Embeds the placement logic of `ChangeBasisPass._with_basis_changed`: the
basis-change moment, when non-empty, is emitted before the rewritten moment
for a measurement-basis target and after it for a reset-basis target. -/
def momentOutput (t : PassBasis) (acc : MomentAcc) : MomentCircuit :=
  (if acc.basisChange ≠ [] ∧ changeMeasurementBasis t then [acc.basisChange]
   else [])
  ++ [acc.current]
  ++ (if acc.basisChange ≠ [] ∧ changeResetBasis t then [acc.basisChange]
      else [])

/-- Embeds `ChangeBasisPass._with_basis_changed`: every moment of the input
circuit is rewritten and the resulting moments are concatenated in order. -/
def withBasisChanged (t : PassBasis) : MomentCircuit →
    Except PyError MomentCircuit
  | [] => .ok []
  | m :: ms =>
    match processMoment t m with
    | .error e => .error e
    | .ok acc =>
      match withBasisChanged t ms with
      | .error e => .error e
      | .ok rest => .ok (momentOutput t acc ++ rest)

/-- Embeds `ChangeBasisPass.run` (with its default `check_all_flows=False`). -/
def run (t : PassBasis) (c : MomentCircuit) : Except PyError MomentCircuit :=
  withBasisChanged t c

end ChangeBasisPass

/-! Data model for the builders of `tqec/compile/specs/library/base.py`. -/

/-- Embeds `Direction3D` from `tqec.position`: one of the three axes. -/
inductive Direction3D
  | X
  | Y
  | Z
  deriving DecidableEq

/-- Embeds `ZObservableOrientation` from `tqec.templates.enums`. -/
inductive ZObservableOrientation
  | HORIZONTAL
  | VERTICAL
  deriving DecidableEq

/-- Embeds the four arm directions of `JunctionArms` from
`tqec.compile.specs.enums`. -/
inductive JunctionArms
  | UP
  | RIGHT
  | DOWN
  | LEFT
  deriving DecidableEq

/-- The spatial axis an arm direction lies along: LEFT/RIGHT are in-plane X
arms, UP/DOWN are in-plane Y arms. -/
def JunctionArms.axis : JunctionArms → Direction3D
  | .LEFT => .X
  | .RIGHT => .X
  | .UP => .Y
  | .DOWN => .Y

/-- Embeds the closed set of cube kinds from `tqec.computation.cube`:
`ZXCube` (with its per-axis boundary bases), `Port` and `YCube`. -/
inductive CubeKind
  | zxCube (x y z : Basis)
  | port
  | yCube
  deriving DecidableEq

/-- Modelled from the spec: `CubeSpec` from `tqec.compile.specs.base` (module
not under the provided sources): "(kind, set of incident-pipe directions
forming junction arms if any)". -/
structure CubeSpec where
  kind : CubeKind
  junctionArms : List JunctionArms
  deriving DecidableEq

/-- Modelled from the spec: a cube is a spatial junction when "more than one
in-plane pipe of differing orientation attaches", i.e. its arms span both
in-plane axes. -/
def CubeSpec.isSpatialJunction (s : CubeSpec) : Bool :=
  s.junctionArms.any (fun a => a.axis == Direction3D.X) &&
  s.junctionArms.any (fun a => a.axis == Direction3D.Y)

/-- Modelled from the spec: `PipeKind` from `tqec.computation.pipe` (module
not under the provided sources): per axis, the boundary basis at the head of
the pipe (`none` standing for the letter O on the pipe's own direction axis),
plus the Hadamard flag. -/
structure PipeKind where
  x : Option Basis
  y : Option Basis
  z : Option Basis
  hasHadamard : Bool
  deriving DecidableEq

/-- Modelled from the spec: "the direction is inferred from which axis-letter
is O (open/not constrained)". -/
def PipeKind.direction (k : PipeKind) : Direction3D :=
  if k.x = none then .X else if k.y = none then .Y else .Z

/-- Embeds `PipeKind.is_temporal`: the pipe direction is the time axis Z. -/
def PipeKind.isTemporal (k : PipeKind) : Bool :=
  match k.direction with
  | .Z => true
  | _ => false

/-- Embeds `PipeKind.is_spatial`: the pipe direction is an in-plane axis. -/
def PipeKind.isSpatial (k : PipeKind) : Bool :=
  match k.direction with
  | .X => true
  | .Y => true
  | .Z => false

/-- The opposite basis, used when a Hadamard transition flips a boundary. -/
def Basis.flipped : Basis → Basis
  | .X => .Z
  | .Z => .X

/-- Modelled from the spec: `PipeKind.get_basis_along`: the boundary basis on
the requested axis, at the head or at the tail of the pipe; with the Hadamard
flag the basis at the tail is the flipped one. -/
def PipeKind.getBasisAlong (k : PipeKind) (d : Direction3D) (atHead : Bool) :
    Option Basis :=
  let b := match d with
    | .X => k.x
    | .Y => k.y
    | .Z => k.z
  if atHead then b
  else if k.hasHadamard then b.map Basis.flipped
  else b

/-- Embeds `TemplateBorder` from `tqec.templates.indices.enums`. -/
inductive TemplateBorder
  | TOP
  | BOTTOM
  | LEFT
  | RIGHT
  deriving DecidableEq

/-- Modelled from the spec: a `RectangularTemplate` "exposes, for each of its
four sides, the ordered sequence of slot indices lying on that border". -/
structure RectangularTemplate where
  top : List Nat
  bottom : List Nat
  left : List Nat
  right : List Nat
  deriving DecidableEq

/-- Embeds `RectangularTemplate.get_border_indices`. -/
def RectangularTemplate.getBorderIndices (t : RectangularTemplate) :
    TemplateBorder → List Nat
  | .TOP => t.top
  | .BOTTOM => t.bottom
  | .LEFT => t.left
  | .RIGHT => t.right

/-- Modelled from the spec: the border-matching bijection of
`BorderIndices.to` "is built by positional zip of the two ordered border-slot
sequences". -/
def borderIndicesTo (a b : List Nat) : List (Nat × Nat) := a.zip b

/-- Total model of Python dict indexing for a border-matching bijection: the
image of a key under the zipped association list (the claims never depend on a
missing key, whose lookup would raise `KeyError` in Python). -/
def mappingApply (m : List (Nat × Nat)) (i : Nat) : Nat :=
  (Option.map Prod.snd (m.find? (fun p => p.1 == i))).getD i

/-- Modelled from the spec: an RPNG description as produced by the description
factories of `tqec.templates.library` (modules not under the provided
sources).  We record which factory produced the description together with the
factory arguments and the plaquette slot it describes, which is everything the
claims about the builders depend on. -/
inductive RPNGDescription
  | memoryQubit (o : ZObservableOrientation) (r m : Option Basis) (idx : Nat)
  | temporalHadamard (o : ZObservableOrientation) (idx : Nat)
  | memoryVerticalBoundary (o : ZObservableOrientation) (r m : Option Basis)
      (idx : Nat)
  | memoryHorizontalBoundary (o : ZObservableOrientation) (r m : Option Basis)
      (idx : Nat)
  | spatialJunctionQubit (b : Basis) (arms : List JunctionArms)
      (r m : Option Basis) (idx : Nat)
  deriving DecidableEq

/-- Modelled from the spec: a plaquette, as produced by the default RPNG
translator followed by the plaquette compiler (modules not under the provided
sources); the claims only depend on this being a fixed function of the
description. -/
structure Plaquette where
  descr : RPNGDescription
  deriving DecidableEq

/-- Embeds `BaseSubstitutionBuilder._get_plaquette` (translate then compile). -/
def getPlaquette (d : RPNGDescription) : Plaquette := ⟨d⟩

/-- A plaquette layer: the mapping from plaquette slot indices to plaquettes
(`Plaquettes` in the repository), as an association list over the explicitly
stored indices. -/
abbrev PlaquetteLayer := List (Nat × Plaquette)

/-- Embeds `FrozenDefaultDict.map_values` over the stored entries. -/
def mapValues {α β : Type} (f : α → β) (l : List (Nat × α)) : List (Nat × β) :=
  l.map (fun p => (p.1, f p.2))

/-- Embeds `FrozenDefaultDict.map_keys` over the stored entries. -/
def mapKeys {α : Type} (f : Nat → Nat) (l : List (Nat × α)) : List (Nat × α) :=
  l.map (fun p => (f p.1, p.2))

/-- Embeds `Substitution` from `tqec.compile.specs.base`: the source-side and
destination-side plaquette overrides, keyed by relative layer index. -/
structure Substitution where
  src : List (Int × PlaquetteLayer)
  dst : List (Int × PlaquetteLayer)
  deriving DecidableEq

/-- The relative layer indices used by the two override dictionaries of a
substitution, in storage order. -/
def substKeys (s : Substitution) : List Int × List Int :=
  (s.src.map Prod.fst, s.dst.map Prod.fst)

/-- Modelled from the spec: `PipeSpec` = "(pipe kind, the two endpoint
CubeSpecs, the two endpoint templates)". -/
structure PipeSpec where
  pipeKind : PipeKind
  cubeSpecs : CubeSpec × CubeSpec
  cubeTemplates : RectangularTemplate × RectangularTemplate
  deriving DecidableEq

/-! Modelled template library.  The concrete index grids live in
`tqec.templates.library` and `tqec.templates.indices`, which are not under the
provided sources; we model each raw template as a small rectangular grid with
two slots per border, which satisfies the spec's template-family invariant
that paired borders have equal length. -/

/-- Modelled from the spec: `get_memory_qubit_raw_template`. -/
def getMemoryQubitRawTemplate : RectangularTemplate :=
  { top := [1, 2], bottom := [3, 4], left := [1, 3], right := [2, 4] }

/-- Modelled from the spec: `get_spatial_junction_qubit_raw_template`. -/
def getSpatialJunctionQubitRawTemplate : RectangularTemplate :=
  { top := [5, 6], bottom := [7, 8], left := [5, 7], right := [6, 8] }

/-- Modelled from the spec: `get_memory_vertical_boundary_raw_template`, the
boundary template of a pipe running along the X axis. -/
def getMemoryVerticalBoundaryRawTemplate : RectangularTemplate :=
  { top := [1], bottom := [2], left := [1, 2], right := [1, 2] }

/-- Modelled from the spec: `get_memory_horizontal_boundary_raw_template`, the
boundary template of a pipe running along the Y axis. -/
def getMemoryHorizontalBoundaryRawTemplate : RectangularTemplate :=
  { top := [1, 2], bottom := [1, 2], left := [1], right := [2] }

/-- Modelled from the spec: `get_spatial_junction_arm_raw_template`, the
boundary template of the single arm of a spatial junction. -/
def getSpatialJunctionArmRawTemplate (_arm : JunctionArms) :
    RectangularTemplate :=
  { top := [1, 2], bottom := [3, 4], left := [1, 3], right := [2, 4] }

/-- Modelled from the spec: `get_memory_qubit_rpng_descriptions`, the plain
memory plaquette layer at a given observable orientation with optional
first-layer reset and last-layer measurement bases. -/
def getMemoryQubitRPNGDescriptions (o : ZObservableOrientation)
    (r m : Option Basis) : List (Nat × RPNGDescription) :=
  [1, 2, 3, 4].map (fun i => (i, RPNGDescription.memoryQubit o r m i))

/-- Modelled from the spec: `get_temporal_hadamard_rpng_descriptions`, the
Hadamard-transition plaquette layer at a given observable orientation. -/
def getTemporalHadamardRPNGDescriptions (o : ZObservableOrientation) :
    List (Nat × RPNGDescription) :=
  [1, 2, 3, 4].map (fun i => (i, RPNGDescription.temporalHadamard o i))

/-- Modelled from the spec: `get_memory_vertical_boundary_rpng_descriptions`. -/
def getMemoryVerticalBoundaryRPNGDescriptions (o : ZObservableOrientation)
    (r m : Option Basis) : List (Nat × RPNGDescription) :=
  [1, 2].map (fun i => (i, RPNGDescription.memoryVerticalBoundary o r m i))

/-- Modelled from the spec: `get_memory_horizontal_boundary_rpng_descriptions`. -/
def getMemoryHorizontalBoundaryRPNGDescriptions (o : ZObservableOrientation)
    (r m : Option Basis) : List (Nat × RPNGDescription) :=
  [1, 2].map (fun i => (i, RPNGDescription.memoryHorizontalBoundary o r m i))

/-- Modelled from the spec: `get_spatial_junction_qubit_rpng_descriptions`. -/
def getSpatialJunctionQubitRPNGDescriptions (b : Basis)
    (arms : List JunctionArms) (r m : Option Basis) :
    List (Nat × RPNGDescription) :=
  [1, 2, 3, 4].map
    (fun i => (i, RPNGDescription.spatialJunctionQubit b arms r m i))

namespace BaseSubstitutionBuilder

/-- Embeds `BaseSubstitutionBuilder._get_temporal_non_hadamard_pipe_substitution`:
the plain memory layer, oriented by the pipe's X-axis basis, becomes both the
layer −1 override at the source cube and the layer 0 override at the
destination cube. -/
def getTemporalNonHadamardPipeSubstitution (spec : PipeSpec) :
    Except PyError Substitution :=
  if ¬ spec.pipeKind.isTemporal then .error .assertionError
  else if spec.pipeKind.hasHadamard then .error .assertionError
  else
    let o := if spec.pipeKind.x = some Basis.Z then
        ZObservableOrientation.HORIZONTAL
      else ZObservableOrientation.VERTICAL
    let memoryPlaquettes :=
      mapValues getPlaquette (getMemoryQubitRPNGDescriptions o none none)
    .ok { src := [(-1, memoryPlaquettes)], dst := [(0, memoryPlaquettes)] }

/-- Embeds `BaseSubstitutionBuilder._get_temporal_hadamard_pipe_substitution`:
the Hadamard transition is performed at the end of the temporally-first block,
so the source override at layer −1 is the Hadamard-transition layer oriented
from the pipe's X-axis basis at its head, and the destination override at
layer 0 is the plain memory layer at the other orientation. -/
def getTemporalHadamardPipeSubstitution (spec : PipeSpec) :
    Except PyError Substitution :=
  if ¬ spec.pipeKind.isTemporal then .error .assertionError
  else if ¬ spec.pipeKind.hasHadamard then .error .assertionError
  else
    match spec.pipeKind.getBasisAlong Direction3D.X true with
    | none => .error (.tqecException
        "A temporal pipe should have a non-None basis on the X-axis.")
    | some b =>
      let firstLayerOrientation := if b = Basis.Z then
          ZObservableOrientation.HORIZONTAL
        else ZObservableOrientation.VERTICAL
      let secondLayerOrientation := if b = Basis.Z then
          ZObservableOrientation.VERTICAL
        else ZObservableOrientation.HORIZONTAL
      let hadamardPlaquettes := mapValues getPlaquette
        (getTemporalHadamardRPNGDescriptions firstLayerOrientation)
      let memoryPlaquettes := mapValues getPlaquette
        (getMemoryQubitRPNGDescriptions secondLayerOrientation none none)
      .ok { src := [(-1, hadamardPlaquettes)], dst := [(0, memoryPlaquettes)] }

/-- Embeds `BaseSubstitutionBuilder.get_temporal_pipe_substitution`. -/
def getTemporalPipeSubstitution (spec : PipeSpec) :
    Except PyError Substitution :=
  if ¬ spec.pipeKind.isTemporal then .error .assertionError
  else if spec.pipeKind.hasHadamard then
    getTemporalHadamardPipeSubstitution spec
  else getTemporalNonHadamardPipeSubstitution spec

/-- Embeds `BaseSubstitutionBuilder._get_plaquette_indices_mapping`: the two
border bijections between the pipe template and the two cube templates, which
is a programming error for a temporal direction. -/
def getPlaquetteIndicesMapping
    (qubitTemplates : RectangularTemplate × RectangularTemplate)
    (pipeTemplate : RectangularTemplate) (d : Direction3D) :
    Except PyError (List (Nat × Nat) × List (Nat × Nat)) :=
  match d with
  | .X => .ok
      (borderIndicesTo (pipeTemplate.getBorderIndices .LEFT)
        (qubitTemplates.1.getBorderIndices .RIGHT),
       borderIndicesTo (pipeTemplate.getBorderIndices .RIGHT)
        (qubitTemplates.2.getBorderIndices .LEFT))
  | .Y => .ok
      (borderIndicesTo (pipeTemplate.getBorderIndices .BOTTOM)
        (qubitTemplates.1.getBorderIndices .TOP),
       borderIndicesTo (pipeTemplate.getBorderIndices .TOP)
        (qubitTemplates.2.getBorderIndices .BOTTOM))
  | .Z => .error (.tqecException
      "This method cannot be used with a temporal pipe.")

/-- Embeds `BaseSubstitutionBuilder._get_spatial_junction_arm`: the arm
direction, from which endpoint is the junction and the pipe axis. -/
def getSpatialJunctionArm (spec : PipeSpec) : Except PyError JunctionArms :=
  match spec.cubeSpecs.1.isSpatialJunction, spec.pipeKind.direction with
  | true, .X => .ok .RIGHT
  | false, .X => .ok .LEFT
  | true, .Y => .ok .UP
  | false, .Y => .ok .DOWN
  | _, .Z => .error (.tqecException
      "Should never happen as we are in a spatial (i.e., X/Y plane) junction.")

/-- Embeds the selection `xbasis if xbasis is not None else ybasis` in
`BaseSubstitutionBuilder._get_spatial_junction_pipe_substitution`. -/
def spatialBoundaryBasis (k : PipeKind) : Option Basis :=
  match k.x with
  | some b => some b
  | none => k.y

/-- Embeds the three-layer loop shared by the two spatial substitution
builders: for relative layers 0, 1 and 2 the factory is called with the
pipe's Z basis as first-layer reset and last-layer measurement, and the
resulting layer is remapped through the source-side and destination-side
border bijections. -/
def spatialSubstitutionFromLayers
    (factory : Option Basis → Option Basis → List (Nat × RPNGDescription))
    (z : Option Basis) (m₁ m₂ : List (Nat × Nat)) : Substitution :=
  let layerFor := fun (r m : Option Basis) =>
    mapValues getPlaquette (factory r m)
  { src := [(0, mapKeys (mappingApply m₁) (layerFor z none)),
            (1, mapKeys (mappingApply m₁) (layerFor none none)),
            (2, mapKeys (mappingApply m₁) (layerFor none z))],
    dst := [(0, mapKeys (mappingApply m₂) (layerFor z none)),
            (1, mapKeys (mappingApply m₂) (layerFor none none)),
            (2, mapKeys (mappingApply m₂) (layerFor none z))] }

/-- Embeds `BaseSubstitutionBuilder._get_spatial_junction_pipe_substitution`. -/
def getSpatialJunctionPipeSubstitution (spec : PipeSpec) :
    Except PyError Substitution :=
  if ¬ spec.pipeKind.isSpatial then .error .assertionError
  else if ¬ (spec.cubeSpecs.1.isSpatialJunction ||
             spec.cubeSpecs.2.isSpatialJunction) then .error .assertionError
  else if spec.cubeSpecs.1.isSpatialJunction &&
          spec.cubeSpecs.2.isSpatialJunction then
    .error (.tqecException
      "Found 2 spatial junctions connected. This is not supported yet.")
  else
    match getSpatialJunctionArm spec with
    | .error e => .error e
    | .ok arm =>
      match spatialBoundaryBasis spec.pipeKind with
      | none => .error .assertionError
      | some sbb =>
        match getPlaquetteIndicesMapping spec.cubeTemplates
            (getSpatialJunctionArmRawTemplate arm) spec.pipeKind.direction with
        | .error e => .error e
        | .ok mappings =>
          .ok (spatialSubstitutionFromLayers
            (fun r m => getSpatialJunctionQubitRPNGDescriptions sbb [arm] r m)
            spec.pipeKind.z mappings.1 mappings.2)

/-- Embeds `BaseSubstitutionBuilder._get_spatial_regular_pipe_substitution`. -/
def getSpatialRegularPipeSubstitution (spec : PipeSpec) :
    Except PyError Substitution :=
  if spec.cubeSpecs.1.isSpatialJunction ||
     spec.cubeSpecs.2.isSpatialJunction then .error .assertionError
  else
    match spec.pipeKind.direction with
    | .X =>
      let pipeTemplate := getMemoryVerticalBoundaryRawTemplate
      let m₁ := borderIndicesTo (pipeTemplate.getBorderIndices .LEFT)
        (spec.cubeTemplates.1.getBorderIndices .RIGHT)
      let m₂ := borderIndicesTo (pipeTemplate.getBorderIndices .RIGHT)
        (spec.cubeTemplates.2.getBorderIndices .LEFT)
      let o := if spec.pipeKind.y = some Basis.X then
          ZObservableOrientation.HORIZONTAL
        else ZObservableOrientation.VERTICAL
      .ok (spatialSubstitutionFromLayers
        (fun r m => getMemoryVerticalBoundaryRPNGDescriptions o r m)
        spec.pipeKind.z m₁ m₂)
    | .Y =>
      let pipeTemplate := getMemoryHorizontalBoundaryRawTemplate
      let m₁ := borderIndicesTo (pipeTemplate.getBorderIndices .BOTTOM)
        (spec.cubeTemplates.1.getBorderIndices .TOP)
      let m₂ := borderIndicesTo (pipeTemplate.getBorderIndices .TOP)
        (spec.cubeTemplates.2.getBorderIndices .BOTTOM)
      let o := if spec.pipeKind.x = some Basis.Z then
          ZObservableOrientation.HORIZONTAL
        else ZObservableOrientation.VERTICAL
      .ok (spatialSubstitutionFromLayers
        (fun r m => getMemoryHorizontalBoundaryRPNGDescriptions o r m)
        spec.pipeKind.z m₁ m₂)
    | .Z => .error (.tqecException
        "Spatial pipes cannot have a direction equal to Direction3D.Z.")

/-- Embeds `BaseSubstitutionBuilder.get_spatial_pipe_substitution`: note that
the dispatch only inspects the first endpoint's cube specification. -/
def getSpatialPipeSubstitution (spec : PipeSpec) :
    Except PyError Substitution :=
  if ¬ spec.pipeKind.isSpatial then .error .assertionError
  else if spec.cubeSpecs.1.isSpatialJunction then
    getSpatialJunctionPipeSubstitution spec
  else getSpatialRegularPipeSubstitution spec

/-- Embeds `BaseSubstitutionBuilder.__call__`. -/
def buildSubstitution (spec : PipeSpec) : Except PyError Substitution :=
  if spec.pipeKind.isTemporal then getTemporalPipeSubstitution spec
  else getSpatialPipeSubstitution spec

end BaseSubstitutionBuilder

namespace BaseBlockBuilder

/-- Embeds `CompiledBlock` from `tqec.compile.block`: a template together with
the plaquette layers of the block's time steps. -/
structure CompiledBlock where
  template : RectangularTemplate
  layers : List PlaquetteLayer
  deriving DecidableEq

/-- Embeds `BaseBlockBuilder._get_template_and_plaquettes`: template and three
description layers for a cube, with the reset/measurement override applied on
the first/last layer only. -/
def getTemplateAndPlaquettes (spec : CubeSpec) :
    Except PyError
      (RectangularTemplate × List (List (Nat × RPNGDescription))) :=
  match spec.kind with
  | .zxCube x _ z =>
    let rms : List (Option Basis × Option Basis) :=
      [(some z, none), (none, none), (none, some z)]
    if ¬ spec.isSpatialJunction then
      let o := if x = Basis.Z then ZObservableOrientation.HORIZONTAL
        else ZObservableOrientation.VERTICAL
      .ok (getMemoryQubitRawTemplate,
        rms.map (fun rm => getMemoryQubitRPNGDescriptions o rm.1 rm.2))
    else
      .ok (getSpatialJunctionQubitRawTemplate,
        rms.map (fun rm =>
          getSpatialJunctionQubitRPNGDescriptions x spec.junctionArms
            rm.1 rm.2))
  | _ => .error .assertionError

/-- Embeds `BaseBlockBuilder.__call__`: a `TQECException` for a Port, a
`NotImplementedError` for a Y cube, and a compiled block otherwise. -/
def buildBlock (spec : CubeSpec) : Except PyError CompiledBlock :=
  match spec.kind with
  | .port => .error (.tqecException "Cannot build a block for a Port.")
  | .yCube => .error (.notImplementedError "Y cube is not implemented.")
  | .zxCube _ _ _ =>
    match getTemplateAndPlaquettes spec with
    | .error e => .error e
    | .ok tp => .ok ⟨tp.1, tp.2.map (mapValues getPlaquette)⟩

end BaseBlockBuilder

/-! Further derived notions and concrete inputs used by the claims. -/

/-- Follows the spec's words: the observable orientation implied by the
boundary basis at a temporal pipe endpoint (Z gives horizontal, X gives
vertical). -/
def orientationOfBasis (b : Basis) : ZObservableOrientation :=
  if b = Basis.Z then .HORIZONTAL else .VERTICAL

/-- The opposite (rotated) observable orientation. -/
def ZObservableOrientation.rotated :
    ZObservableOrientation → ZObservableOrientation
  | .HORIZONTAL => .VERTICAL
  | .VERTICAL => .HORIZONTAL

/-- An ordinary (non-junction) memory cube specification. -/
def plainCubeSpec : CubeSpec := { kind := .zxCube .Z .X .Z, junctionArms := [] }

/-- A spatial-junction cube specification with a left and an up arm. -/
def junctionCubeSpec : CubeSpec :=
  { kind := .zxCube .Z .X .Z, junctionArms := [.LEFT, .UP] }

/-- A temporal non-Hadamard pipe specification. -/
def temporalPipeSpec : PipeSpec :=
  { pipeKind := { x := some .Z, y := some .X, z := none, hasHadamard := false },
    cubeSpecs := (plainCubeSpec, plainCubeSpec),
    cubeTemplates := (getMemoryQubitRawTemplate, getMemoryQubitRawTemplate) }

/-- A temporal Hadamard pipe specification with Z basis on the X axis at its
head. -/
def temporalHadamardPipeSpec : PipeSpec :=
  { pipeKind := { x := some .Z, y := some .X, z := none, hasHadamard := true },
    cubeSpecs := (plainCubeSpec, plainCubeSpec),
    cubeTemplates := (getMemoryQubitRawTemplate, getMemoryQubitRawTemplate) }

/-- A spatial X-direction pipe between two ordinary cubes. -/
def spatialRegularPipeSpec : PipeSpec :=
  { pipeKind := { x := none, y := some .X, z := some .Z, hasHadamard := false },
    cubeSpecs := (plainCubeSpec, plainCubeSpec),
    cubeTemplates := (getMemoryQubitRawTemplate, getMemoryQubitRawTemplate) }

/-- A spatial X-direction pipe whose SECOND endpoint only is a spatial
junction. -/
def spatialJunctionSecondPipeSpec : PipeSpec :=
  { pipeKind := { x := none, y := some .X, z := some .Z, hasHadamard := false },
    cubeSpecs := (plainCubeSpec, junctionCubeSpec),
    cubeTemplates :=
      (getMemoryQubitRawTemplate, getSpatialJunctionQubitRawTemplate) }

/-- A spatial X-direction pipe between two spatial junctions. -/
def spatialDoubleJunctionPipeSpec : PipeSpec :=
  { pipeKind := { x := none, y := some .X, z := some .Z, hasHadamard := false },
    cubeSpecs := (junctionCubeSpec, junctionCubeSpec),
    cubeTemplates :=
      (getSpatialJunctionQubitRawTemplate, getSpatialJunctionQubitRawTemplate) }

/-! Spec-side descriptions of the basis-normalizer rewrite, written from the
specification's words so that the embedded pass can be compared against them. -/

namespace ChangeBasisPass

/-- Whether the pass has to rewrite this instruction: it is a candidate for
the configured target and its native basis is not the target basis. -/
def specNeedsChange (t : PassBasis) (i : Instruction) : Bool :=
  mayHaveToChange t i &&
    (match getInstructionBasis i with
     | .ok b => decide (b ≠ t)
     | .error _ => true)

/-- The target-basis instruction substituted for a rewritten candidate,
keeping its targets and gate arguments. -/
def targetInstruction (t : PassBasis) (i : Instruction) : Instruction :=
  { name := t.instructionName, targets := i.targets, gateArgs := i.gateArgs }

/-- The single-qubit basis-change operation inserted for a rewritten
candidate: an H on the same targets. -/
def hadamardInstruction (i : Instruction) : Instruction :=
  { name := "H", targets := i.targets, gateArgs := [] }

/-- Follows the amended claim C1's words: per input moment, candidates in the
wrong basis are replaced by the target-basis instruction and a moment of H
operations is inserted immediately after the rewritten moment when the target
is a reset basis, and immediately before it when the target is a measurement
basis; same-basis and non-candidate instructions are left untouched. -/
def specChangeBasisMoment (t : PassBasis) (m : CircuitMoment) : MomentCircuit :=
  let rewritten := m.map
    (fun i => if specNeedsChange t i then targetInstruction t i else i)
  let flips := (m.filter (fun i => specNeedsChange t i)).map hadamardInstruction
  if flips = [] then [rewritten]
  else if changeResetBasis t then [rewritten, flips]
  else [flips, rewritten]

/-- Follows claim C1 exactly as stated: the H moment is inserted immediately
before the rewritten moment when the target is a reset basis, and immediately
after it when the target is a measurement basis. -/
def claimChangeBasisMoment (t : PassBasis) (m : CircuitMoment) :
    MomentCircuit :=
  let rewritten := m.map
    (fun i => if specNeedsChange t i then targetInstruction t i else i)
  let flips := (m.filter (fun i => specNeedsChange t i)).map hadamardInstruction
  if flips = [] then [rewritten]
  else if changeResetBasis t then [flips, rewritten]
  else [rewritten, flips]

/-- Whether processing this instruction cannot raise: it is either not a
candidate, or a non-combined candidate whose name has a recognised basis. -/
def instructionOk (t : PassBasis) (i : Instruction) : Bool :=
  !(mayHaveToChange t i) ||
    (!(isCombinedInstruction i) && exceptOk (getInstructionBasis i))

/-- Whether processing this instruction necessarily raises: a candidate that
is either combined or has no recognised basis. -/
def instrFails (t : PassBasis) (i : Instruction) : Bool :=
  mayHaveToChange t i &&
    (isCombinedInstruction i || !(exceptOk (getInstructionBasis i)))

/-- Instruction names with a recognised basis in
`ChangeBasisPass._get_instruction_basis`. -/
def supportedBasisName (i : Instruction) : Bool :=
  i.name == "M" || i.name == "MZ" || i.name == "MX" ||
  i.name == "R" || i.name == "RZ" || i.name == "RX"

theorem processInstruction_ok (t : PassBasis) (i : Instruction)
    (acc : MomentAcc) (h : instructionOk t i = true) :
    processInstruction t acc i = .ok
      { current := acc.current ++
          [if specNeedsChange t i then targetInstruction t i else i],
        basisChange := acc.basisChange ++
          (if specNeedsChange t i then [hadamardInstruction i] else []) } := by
  unfold processInstruction specNeedsChange
  by_cases hm : mayHaveToChange t i = true
  · simp only [instructionOk, hm, Bool.not_true, Bool.false_or,
      Bool.and_eq_true, Bool.not_eq_true'] at h
    obtain ⟨hc, hb⟩ := h
    simp only [hm, not_true_eq_false, if_false, hc, Bool.false_eq_true]
    cases hob : getInstructionBasis i with
    | error e => simp [exceptOk, hob] at hb
    | ok b =>
      by_cases hbt : b = t
      · subst hbt
        simp [targetInstruction, hadamardInstruction]
      · simp [hbt, targetInstruction, hadamardInstruction]
  · simp only [Bool.not_eq_true] at hm
    simp [hm]

theorem processMomentGo_ok (t : PassBasis) (m : List Instruction) :
    ∀ acc : MomentAcc, (∀ i ∈ m, instructionOk t i = true) →
    processMomentGo t acc m = .ok
      { current := acc.current ++ m.map
          (fun i => if specNeedsChange t i then targetInstruction t i else i),
        basisChange := acc.basisChange ++
          (m.filter (fun i => specNeedsChange t i)).map hadamardInstruction }
    := by
  induction m with
  | nil => intro acc _; simp [processMomentGo]
  | cons j rest ih =>
    intro acc h
    have hj : instructionOk t j = true := h j (List.mem_cons_self j rest)
    unfold processMomentGo
    simp only [processInstruction_ok t j acc hj]
    rw [ih _ (fun i hi => h i (List.mem_cons_of_mem j hi))]
    by_cases hn : specNeedsChange t j = true
    · simp [hn, List.filter_cons, List.append_assoc]
    · simp only [Bool.not_eq_true] at hn
      simp [hn, List.filter_cons, List.append_assoc]

theorem processMoment_ok (t : PassBasis) (m : CircuitMoment)
    (h : ∀ i ∈ m, instructionOk t i = true) :
    processMoment t m = .ok
      { current := m.map
          (fun i => if specNeedsChange t i then targetInstruction t i else i),
        basisChange :=
          (m.filter (fun i => specNeedsChange t i)).map hadamardInstruction }
    := by
  unfold processMoment
  rw [processMomentGo_ok t m _ h]
  simp

theorem momentOutput_cases (t : PassBasis) (cur bc : List Instruction) :
    momentOutput t { current := cur, basisChange := bc } =
      (if bc = [] then [cur]
       else if changeResetBasis t then [cur, bc] else [bc, cur]) := by
  cases t with
  | resetB b =>
    by_cases hbc : bc = [] <;>
      simp [momentOutput, changeResetBasis, changeMeasurementBasis, hbc]
  | measB b =>
    by_cases hbc : bc = [] <;>
      simp [momentOutput, changeResetBasis, changeMeasurementBasis, hbc]

theorem withBasisChanged_ok (t : PassBasis) (c : MomentCircuit)
    (h : ∀ m ∈ c, ∀ i ∈ m, instructionOk t i = true) :
    withBasisChanged t c = .ok ((c.map (specChangeBasisMoment t)).flatten)
    := by
  induction c with
  | nil => simp [withBasisChanged]
  | cons m ms ih =>
    unfold withBasisChanged
    simp only [processMoment_ok t m
      (fun i hi => h m (List.mem_cons_self m ms) i hi)]
    simp only [ih (fun m₂ hm i hi => h m₂ (List.mem_cons_of_mem m hm) i hi)]
    simp only [momentOutput_cases]
    simp [specChangeBasisMoment]

theorem getInstructionBasis_unsupported (i : Instruction)
    (h : supportedBasisName i = false) :
    getInstructionBasis i = .error (.tqecException
      ("Found a " ++ i.name ++ " instruction, that is not supported.")) := by
  simp only [supportedBasisName, Bool.or_eq_false_iff,
    beq_eq_false_iff_ne, ne_eq] at h
  obtain ⟨⟨⟨⟨⟨h₁, h₂⟩, h₃⟩, h₄⟩, h₅⟩, h₆⟩ := h
  simp [getInstructionBasis, h₁, h₂, h₃, h₄, h₅, h₆]

theorem getInstructionBasis_combined (i : Instruction)
    (h : isCombinedInstruction i = true) :
    supportedBasisName i = false := by
  simp only [isCombinedInstruction, Bool.or_eq_true, beq_iff_eq] at h
  obtain ((h | h) | h) | h := h <;> simp [supportedBasisName, h]

theorem processInstruction_fails (t : PassBasis) (acc : MomentAcc)
    (i : Instruction) (h : instrFails t i = true) :
    ∃ e, processInstruction t acc i = .error e := by
  simp only [instrFails, Bool.and_eq_true, Bool.or_eq_true,
    Bool.not_eq_true'] at h
  obtain ⟨hm, hrest⟩ := h
  unfold processInstruction
  simp only [hm, not_true_eq_false, if_false, Bool.false_eq_true]
  by_cases hc : isCombinedInstruction i = true
  · refine ⟨.tqecException
      ("Combined reset and measurement instructions are not supported. Found "
        ++ i.name ++ "."), ?_⟩
    simp [hc]
  · simp only [Bool.not_eq_true] at hc
    rcases hrest with hcomb | hb
    · rw [hc] at hcomb; exact absurd hcomb (by simp)
    · simp only [hc, Bool.false_eq_true, if_false]
      cases hob : getInstructionBasis i with
      | error e => exact ⟨e, rfl⟩
      | ok b => rw [hob] at hb; simp [exceptOk] at hb

theorem processMomentGo_fails (t : PassBasis) (m : List Instruction) :
    ∀ acc : MomentAcc, (∃ i ∈ m, instrFails t i = true) →
    ∃ e, processMomentGo t acc m = .error e := by
  induction m with
  | nil => intro acc h; simp at h
  | cons j rest ih =>
    intro acc h
    unfold processMomentGo
    cases hj : processInstruction t acc j with
    | error e => exact ⟨e, rfl⟩
    | ok acc₂ =>
      apply ih
      obtain ⟨i, hi, hf⟩ := h
      rcases List.mem_cons.mp hi with rfl | hmem
      · obtain ⟨e, he⟩ := processInstruction_fails t acc i hf
        rw [he] at hj; exact absurd hj (by simp)
      · exact ⟨i, hmem, hf⟩

theorem withBasisChanged_fails (t : PassBasis) (c : MomentCircuit)
    (h : ∃ m ∈ c, ∃ i ∈ m, instrFails t i = true) :
    ∃ e, withBasisChanged t c = .error e := by
  induction c with
  | nil => simp at h
  | cons m₀ ms ih =>
    obtain ⟨m, hm, hi⟩ := h
    rcases List.mem_cons.mp hm with rfl | hmem
    · obtain ⟨e, he⟩ :=
        processMomentGo_fails t m { current := [], basisChange := [] } hi
      have hpe : processMoment t m = .error e := he
      refine ⟨e, ?_⟩
      unfold withBasisChanged
      simp [hpe]
    · obtain ⟨e, he⟩ := ih ⟨m, hmem, hi⟩
      unfold withBasisChanged
      cases hp : processMoment t m₀ with
      | error e₂ => exact ⟨e₂, rfl⟩
      | ok acc =>
        refine ⟨e, ?_⟩
        simp [he]

end ChangeBasisPass

/-- Flattening singleton moments reproduces the original circuit. -/
theorem flatten_map_singleton {α : Type} (l : List α) :
    (l.map (fun a => [a])).flatten = l := by
  induction l with
  | nil => rfl
  | cons a l ih => simp [ih]

/-- Claim C1, counterexample: with the target reset basis Z and an input
circuit holding a single X-basis reset, `ChangeBasisPass.run` emits the H
moment immediately AFTER the rewritten reset moment, not immediately before
it as the claim states for reset targets. -/
theorem claim1_counterexample :
    ChangeBasisPass.run (.resetB .Z) [[⟨"RX", [0], []⟩]] =
      .ok [[⟨"RZ", [0], []⟩], [⟨"H", [0], []⟩]] ∧
    (([[⟨"RX", [0], []⟩]] : MomentCircuit).map
        (ChangeBasisPass.claimChangeBasisMoment (.resetB .Z))).flatten ≠
      [[⟨"RZ", [0], []⟩], [⟨"H", [0], []⟩]] :=
  ⟨rfl, by decide⟩

/-- Claim C1 (amended): for every circuit whose instructions the pass can
process (no combined reset-measurement candidate, no unrecognised candidate
name), every reset or measurement whose basis differs from the configured
target is replaced by the target-basis instruction and a single-qubit H
moment is inserted immediately AFTER the affected moment when the target is a
reset basis and immediately BEFORE it when the target is a measurement basis,
while candidates already in the target basis and non-candidates are left
untouched — as described by `specChangeBasisMoment`. -/
theorem claim1_basis_change_placement (t : PassBasis) (c : MomentCircuit)
    (h : ∀ m ∈ c, ∀ i ∈ m, ChangeBasisPass.instructionOk t i = true) :
    ChangeBasisPass.run t c =
      .ok ((c.map (ChangeBasisPass.specChangeBasisMoment t)).flatten) :=
  ChangeBasisPass.withBasisChanged_ok t c h

/-- Witness for claim C1's amended theorem at a concrete circuit. -/
theorem claim1_basis_change_placement_witness :
    ChangeBasisPass.run (.measB .X) [[⟨"MZ", [0], []⟩, ⟨"CX", [0, 1], []⟩]] =
      .ok ((([[⟨"MZ", [0], []⟩, ⟨"CX", [0, 1], []⟩]] : MomentCircuit).map
        (ChangeBasisPass.specChangeBasisMoment (.measB .X))).flatten) :=
  claim1_basis_change_placement (.measB .X) _ (by decide)

/-- Claim C9: when every candidate instruction of the circuit is already in
the configured target basis, `ChangeBasisPass.run` returns the input circuit
unchanged, so running the pass twice equals running it once. -/
theorem claim9_idempotent_when_matching (t : PassBasis) (c : MomentCircuit)
    (h : ∀ m ∈ c, ∀ i ∈ m, ChangeBasisPass.mayHaveToChange t i = true →
      ChangeBasisPass.getInstructionBasis i = .ok t) :
    ChangeBasisPass.run t c = .ok c ∧
    Except.bind (ChangeBasisPass.run t c) (ChangeBasisPass.run t) =
      ChangeBasisPass.run t c := by
  have hok : ∀ m ∈ c, ∀ i ∈ m, ChangeBasisPass.instructionOk t i = true := by
    intro m hm i hi
    unfold ChangeBasisPass.instructionOk
    by_cases hmc : ChangeBasisPass.mayHaveToChange t i = true
    · have hb := h m hm i hi hmc
      have hcomb : isCombinedInstruction i = false := by
        by_cases hcc : isCombinedInstruction i = true
        · have hu := ChangeBasisPass.getInstructionBasis_unsupported i
            (ChangeBasisPass.getInstructionBasis_combined i hcc)
          rw [hb] at hu
          exact absurd hu (by simp)
        · simpa using hcc
      simp [hmc, hcomb, hb, exceptOk]
    · simp only [Bool.not_eq_true] at hmc
      simp [hmc]
  have hnone : ∀ m ∈ c, ∀ i ∈ m,
      ChangeBasisPass.specNeedsChange t i = false := by
    intro m hm i hi
    unfold ChangeBasisPass.specNeedsChange
    by_cases hmc : ChangeBasisPass.mayHaveToChange t i = true
    · have hb := h m hm i hi hmc
      simp [hmc, hb]
    · simp only [Bool.not_eq_true] at hmc
      simp [hmc]
  have hmom : ∀ m ∈ c, ChangeBasisPass.specChangeBasisMoment t m = [m] := by
    intro m hm
    unfold ChangeBasisPass.specChangeBasisMoment
    have hmap : m.map (fun i =>
        if ChangeBasisPass.specNeedsChange t i then
          ChangeBasisPass.targetInstruction t i else i) = m := by
      have hcong : ∀ i ∈ m,
          (if ChangeBasisPass.specNeedsChange t i then
            ChangeBasisPass.targetInstruction t i else i) = i := by
        intro i hi
        simp [hnone m hm i hi]
      rw [List.map_congr_left hcong]
      simp
    have hfil : m.filter (fun i => ChangeBasisPass.specNeedsChange t i)
        = [] := by
      rw [List.filter_eq_nil_iff]
      intro i hi
      simp [hnone m hm i hi]
    simp [hmap, hfil]
  have hfinal : ChangeBasisPass.run t c = .ok c := by
    have hrw := ChangeBasisPass.withBasisChanged_ok t c hok
    unfold ChangeBasisPass.run
    rw [hrw]
    congr 1
    rw [List.map_congr_left hmom]
    exact flatten_map_singleton c
  refine ⟨hfinal, ?_⟩
  rw [hfinal]
  exact hfinal

/-- Witness for claim C9's theorem at a concrete circuit. -/
theorem claim9_idempotent_when_matching_witness :
    ChangeBasisPass.run (.resetB .Z)
        [[⟨"RZ", [0], []⟩, ⟨"H", [1], []⟩], [⟨"M", [0], []⟩]] =
      .ok [[⟨"RZ", [0], []⟩, ⟨"H", [1], []⟩], [⟨"M", [0], []⟩]] ∧
    Except.bind
        (ChangeBasisPass.run (.resetB .Z)
          [[⟨"RZ", [0], []⟩, ⟨"H", [1], []⟩], [⟨"M", [0], []⟩]])
        (ChangeBasisPass.run (.resetB .Z)) =
      ChangeBasisPass.run (.resetB .Z)
        [[⟨"RZ", [0], []⟩, ⟨"H", [1], []⟩], [⟨"M", [0], []⟩]] :=
  claim9_idempotent_when_matching (.resetB .Z) _ (by decide)

/-- Claim C7: a circuit containing a combined reset-measurement instruction
that is a candidate for the configured target makes `ChangeBasisPass.run`
raise instead of returning a rewritten circuit; processing that instruction
raises the dedicated combined-instruction `TQECException`. -/
theorem claim7_combined_rejected (t : PassBasis) (c : MomentCircuit)
    (m : CircuitMoment) (i : Instruction) (acc : ChangeBasisPass.MomentAcc)
    (hm : m ∈ c) (hi : i ∈ m)
    (h₁ : ChangeBasisPass.mayHaveToChange t i = true)
    (h₂ : isCombinedInstruction i = true) :
    exceptOk (ChangeBasisPass.run t c) = false ∧
    ChangeBasisPass.processInstruction t acc i = .error (.tqecException
      ("Combined reset and measurement instructions are not supported. Found "
        ++ i.name ++ ".")) := by
  constructor
  · have hf : ChangeBasisPass.instrFails t i = true := by
      simp [ChangeBasisPass.instrFails, h₁, h₂]
    obtain ⟨e, he⟩ :=
      ChangeBasisPass.withBasisChanged_fails t c ⟨m, hm, i, hi, hf⟩
    unfold ChangeBasisPass.run
    rw [he]
    rfl
  · unfold ChangeBasisPass.processInstruction
    simp [h₁, h₂]

/-- Witness for claim C7's theorem at a concrete circuit containing an MR. -/
theorem claim7_combined_rejected_witness :
    exceptOk (ChangeBasisPass.run (.measB .Z) [[⟨"MR", [0], []⟩]]) = false ∧
    ChangeBasisPass.processInstruction (.measB .Z)
        { current := [], basisChange := [] } ⟨"MR", [0], []⟩ =
      .error (.tqecException
        ("Combined reset and measurement instructions are not supported. Found "
          ++ ("MR" : String) ++ ".")) :=
  claim7_combined_rejected (.measB .Z) [[⟨"MR", [0], []⟩]]
    [⟨"MR", [0], []⟩] ⟨"MR", [0], []⟩ { current := [], basisChange := [] }
    (by decide) (by decide) (by decide) (by decide)

/-- Claim C10: a candidate reset/measurement instruction whose name is
outside M, MZ, MX, R, RZ, RX makes `ChangeBasisPass.run` raise instead of
passing the instruction through; when the instruction is not a combined
reset-measurement gate, processing it raises precisely the `TQECException`
stating that the instruction is not supported. -/
theorem claim10_unsupported_rejected (t : PassBasis) (c : MomentCircuit)
    (m : CircuitMoment) (i : Instruction) (acc : ChangeBasisPass.MomentAcc)
    (hm : m ∈ c) (hi : i ∈ m)
    (h₁ : ChangeBasisPass.mayHaveToChange t i = true)
    (h₂ : ChangeBasisPass.supportedBasisName i = false) :
    exceptOk (ChangeBasisPass.run t c) = false ∧
    (isCombinedInstruction i = false →
      ChangeBasisPass.processInstruction t acc i = .error (.tqecException
        ("Found a " ++ i.name ++ " instruction, that is not supported."))) := by
  have hbasis := ChangeBasisPass.getInstructionBasis_unsupported i h₂
  constructor
  · have hf : ChangeBasisPass.instrFails t i = true := by
      simp [ChangeBasisPass.instrFails, h₁, hbasis, exceptOk]
    obtain ⟨e, he⟩ :=
      ChangeBasisPass.withBasisChanged_fails t c ⟨m, hm, i, hi, hf⟩
    unfold ChangeBasisPass.run
    rw [he]
    rfl
  · intro hcomb
    unfold ChangeBasisPass.processInstruction
    simp [h₁, hcomb, hbasis]

/-- Witness for claim C10's theorem at a concrete circuit containing an MY. -/
theorem claim10_unsupported_rejected_witness :
    exceptOk (ChangeBasisPass.run (.measB .Z) [[⟨"MY", [2], []⟩]]) = false ∧
    (isCombinedInstruction ⟨"MY", [2], []⟩ = false →
      ChangeBasisPass.processInstruction (.measB .Z)
          { current := [], basisChange := [] } ⟨"MY", [2], []⟩ =
        .error (.tqecException
          ("Found a " ++ ("MY" : String) ++
            " instruction, that is not supported."))) :=
  claim10_unsupported_rejected (.measB .Z) [[⟨"MY", [2], []⟩]]
    [⟨"MY", [2], []⟩] ⟨"MY", [2], []⟩ { current := [], basisChange := [] }
    (by decide) (by decide) (by decide) (by decide)

/-! Lemmas and claim theorems about the builders. -/

/-- A spatial pipe kind is not temporal. -/
theorem isSpatial_not_temporal (k : PipeKind) (h : k.isSpatial = true) :
    k.isTemporal = false := by
  unfold PipeKind.isSpatial at h
  unfold PipeKind.isTemporal
  cases hd : k.direction <;> simp_all

/-- A non-temporal pipe kind is spatial. -/
theorem not_temporal_isSpatial (k : PipeKind) (h : k.isTemporal = false) :
    k.isSpatial = true := by
  unfold PipeKind.isTemporal at h
  unfold PipeKind.isSpatial
  cases hd : k.direction <;> simp_all

/-- A non-temporal pipe runs along the X or the Y axis. -/
theorem direction_of_not_temporal (k : PipeKind) (h : k.isTemporal = false) :
    k.direction = Direction3D.X ∨ k.direction = Direction3D.Y := by
  unfold PipeKind.isTemporal at h
  cases hd : k.direction <;> simp_all

/-- Claim C5: for every temporal pipe without the Hadamard flag the builder
succeeds and assigns one and the same plaquette layer to the earlier
endpoint's override at relative layer −1 and to the later endpoint's override
at relative layer 0. -/
theorem claim5_temporal_non_hadamard_symmetric (spec : PipeSpec)
    (h₁ : spec.pipeKind.isTemporal = true)
    (h₂ : spec.pipeKind.hasHadamard = false) :
    exceptOk (BaseSubstitutionBuilder.buildSubstitution spec) = true ∧
    ∀ s, BaseSubstitutionBuilder.buildSubstitution spec = .ok s →
      substKeys s = ([-1], [0]) ∧
      s.src.map Prod.snd = s.dst.map Prod.snd := by
  have hb : BaseSubstitutionBuilder.buildSubstitution spec = .ok
      { src := [(-1, mapValues getPlaquette (getMemoryQubitRPNGDescriptions
          (if spec.pipeKind.x = some Basis.Z then
            ZObservableOrientation.HORIZONTAL
          else ZObservableOrientation.VERTICAL) none none))],
        dst := [(0, mapValues getPlaquette (getMemoryQubitRPNGDescriptions
          (if spec.pipeKind.x = some Basis.Z then
            ZObservableOrientation.HORIZONTAL
          else ZObservableOrientation.VERTICAL) none none))] } := by
    unfold BaseSubstitutionBuilder.buildSubstitution
      BaseSubstitutionBuilder.getTemporalPipeSubstitution
      BaseSubstitutionBuilder.getTemporalNonHadamardPipeSubstitution
    simp [h₁, h₂]
  rw [hb]
  refine ⟨rfl, ?_⟩
  intro s hs
  have hse := Except.ok.inj hs
  rw [← hse]
  exact ⟨rfl, rfl⟩

/-- Witness for claim C5's theorem at a concrete temporal pipe. -/
theorem claim5_temporal_non_hadamard_symmetric_witness :
    exceptOk (BaseSubstitutionBuilder.buildSubstitution temporalPipeSpec)
      = true :=
  (claim5_temporal_non_hadamard_symmetric temporalPipeSpec
    (by decide) (by decide)).1

/-- Claim C4: for every temporal pipe with the Hadamard flag whose basis on
the X axis at its head is b, the builder places the Hadamard-transition layer
oriented from b as the earlier endpoint's override at relative layer −1, and
the plain memory layer at the rotated (opposite) orientation as the later
endpoint's override at relative layer 0. -/
theorem claim4_temporal_hadamard_placement (spec : PipeSpec) (b : Basis)
    (h₁ : spec.pipeKind.isTemporal = true)
    (h₂ : spec.pipeKind.hasHadamard = true)
    (h₃ : spec.pipeKind.getBasisAlong Direction3D.X true = some b) :
    BaseSubstitutionBuilder.buildSubstitution spec = .ok
      { src := [(-1, mapValues getPlaquette
          (getTemporalHadamardRPNGDescriptions (orientationOfBasis b)))],
        dst := [(0, mapValues getPlaquette
          (getMemoryQubitRPNGDescriptions
            (orientationOfBasis b).rotated none none))] } := by
  unfold BaseSubstitutionBuilder.buildSubstitution
    BaseSubstitutionBuilder.getTemporalPipeSubstitution
    BaseSubstitutionBuilder.getTemporalHadamardPipeSubstitution
  simp only [h₁, h₂, h₃]
  cases b <;>
    simp [orientationOfBasis, ZObservableOrientation.rotated]

/-- Witness for claim C4's theorem at a concrete Hadamard temporal pipe. -/
theorem claim4_temporal_hadamard_placement_witness :
    BaseSubstitutionBuilder.buildSubstitution temporalHadamardPipeSpec = .ok
      { src := [(-1, mapValues getPlaquette
          (getTemporalHadamardRPNGDescriptions (orientationOfBasis .Z)))],
        dst := [(0, mapValues getPlaquette
          (getMemoryQubitRPNGDescriptions
            (orientationOfBasis .Z).rotated none none))] } :=
  claim4_temporal_hadamard_placement temporalHadamardPipeSpec .Z
    (by decide) (by decide) (by decide)

/-- Claim C6: a spatial pipe whose two endpoints are both spatial junctions
makes the substitution builder raise the dedicated `TQECException` instead of
returning a substitution. -/
theorem claim6_double_junction_rejected (spec : PipeSpec)
    (h₁ : spec.pipeKind.isSpatial = true)
    (h₂ : (spec.cubeSpecs.1).isSpatialJunction = true)
    (h₃ : (spec.cubeSpecs.2).isSpatialJunction = true) :
    BaseSubstitutionBuilder.buildSubstitution spec = .error (.tqecException
      "Found 2 spatial junctions connected. This is not supported yet.") := by
  have ht := isSpatial_not_temporal _ h₁
  unfold BaseSubstitutionBuilder.buildSubstitution
    BaseSubstitutionBuilder.getSpatialPipeSubstitution
    BaseSubstitutionBuilder.getSpatialJunctionPipeSubstitution
  simp [ht, h₁, h₂, h₃]

/-- Witness for claim C6's theorem at a concrete double-junction pipe. -/
theorem claim6_double_junction_rejected_witness :
    BaseSubstitutionBuilder.buildSubstitution spatialDoubleJunctionPipeSpec =
      .error (.tqecException
        "Found 2 spatial junctions connected. This is not supported yet.") :=
  claim6_double_junction_rejected spatialDoubleJunctionPipeSpec
    (by decide) (by decide) (by decide)

/-- Claim C2 (code bug): a spatial pipe whose junction endpoint is the SECOND
one is dispatched by `get_spatial_pipe_substitution` to the regular-pipe
builder, whose own assertion that no endpoint is a junction then fails — the
builder raises an `AssertionError` instead of returning the LEFT-arm junction
substitution the claim (and `_get_spatial_junction_arm`) prescribes. -/
theorem claim2_junction_second_endpoint_asserts :
    BaseSubstitutionBuilder.buildSubstitution spatialJunctionSecondPipeSpec =
      .error PyError.assertionError := by
  rfl

/-- Claim C3, counterexample: the substitution built for a concrete spatial
pipe uses the relative layer indices 0, 1 and 2 — in particular the key 1,
which is neither −1 nor 0 — in both of its dictionaries. -/
theorem claim3_counterexample :
    Except.map substKeys
        (BaseSubstitutionBuilder.buildSubstitution spatialRegularPipeSpec) =
      .ok ([0, 1, 2], [0, 1, 2]) ∧
    ¬((1 : Int) = -1 ∨ (1 : Int) = 0) :=
  ⟨rfl, by decide⟩

/-- Claim C3 (amended): every substitution returned by the builder for a
temporal pipe keys its two override dictionaries by the relative layer
indices −1 (source side) and 0 (destination side) only, while every
substitution returned for a spatial pipe keys both dictionaries by the
relative layer indices 0, 1 and 2. -/
theorem claim3_substitution_layer_keys (spec : PipeSpec) (s : Substitution)
    (h : BaseSubstitutionBuilder.buildSubstitution spec = .ok s) :
    (spec.pipeKind.isTemporal = true → substKeys s = ([-1], [0])) ∧
    (spec.pipeKind.isTemporal = false →
      substKeys s = ([0, 1, 2], [0, 1, 2])) := by
  constructor
  · intro ht
    unfold BaseSubstitutionBuilder.buildSubstitution
      BaseSubstitutionBuilder.getTemporalPipeSubstitution
      BaseSubstitutionBuilder.getTemporalHadamardPipeSubstitution
      BaseSubstitutionBuilder.getTemporalNonHadamardPipeSubstitution at h
    simp only [ht] at h
    by_cases hh : spec.pipeKind.hasHadamard = true
    · simp only [hh] at h
      simp only [if_true, not_true_eq_false, if_false] at h
      cases hb : spec.pipeKind.getBasisAlong Direction3D.X true with
      | none => rw [hb] at h; exact absurd h (by simp)
      | some b =>
        rw [hb] at h
        have hse := Except.ok.inj h
        rw [← hse]
        rfl
    · simp only [Bool.not_eq_true] at hh
      simp only [hh] at h
      simp only [Bool.false_eq_true, if_false, not_true_eq_false] at h
      have hse := Except.ok.inj h
      rw [← hse]
      rfl
  · intro ht
    have hsp := not_temporal_isSpatial _ ht
    unfold BaseSubstitutionBuilder.buildSubstitution
      BaseSubstitutionBuilder.getSpatialPipeSubstitution at h
    simp only [ht, hsp] at h
    simp only [Bool.false_eq_true, if_false, not_true_eq_false] at h
    rcases direction_of_not_temporal _ ht with hd | hd
    · by_cases hj : (spec.cubeSpecs.1).isSpatialJunction = true
      · simp only [hj, if_true] at h
        unfold BaseSubstitutionBuilder.getSpatialJunctionPipeSubstitution at h
        simp only [hsp, hj, not_true_eq_false, if_false, Bool.true_or,
          Bool.true_and] at h
        by_cases hj2 : (spec.cubeSpecs.2).isSpatialJunction = true
        · simp only [hj2] at h
          exact absurd h (by simp)
        · simp only [Bool.not_eq_true] at hj2
          simp only [hj2, Bool.false_eq_true, if_false] at h
          unfold BaseSubstitutionBuilder.getSpatialJunctionArm at h
          rw [hj, hd] at h
          cases hsb : BaseSubstitutionBuilder.spatialBoundaryBasis spec.pipeKind with
          | none => rw [hsb] at h; exact absurd h (by simp)
          | some sbb =>
            rw [hsb] at h
            have hse := Except.ok.inj h
            rw [← hse]
            rfl
      · simp only [Bool.not_eq_true] at hj
        simp only [hj, Bool.false_eq_true, if_false] at h
        unfold BaseSubstitutionBuilder.getSpatialRegularPipeSubstitution at h
        by_cases hj2 : (spec.cubeSpecs.2).isSpatialJunction = true
        · simp only [hj, hj2] at h
          exact absurd h (by simp)
        · simp only [Bool.not_eq_true] at hj2
          simp only [hj, hj2, Bool.or_self, Bool.false_eq_true, if_false] at h
          rw [hd] at h
          have hse := Except.ok.inj h
          rw [← hse]
          rfl
    · by_cases hj : (spec.cubeSpecs.1).isSpatialJunction = true
      · simp only [hj, if_true] at h
        unfold BaseSubstitutionBuilder.getSpatialJunctionPipeSubstitution at h
        simp only [hsp, hj, not_true_eq_false, if_false, Bool.true_or,
          Bool.true_and] at h
        by_cases hj2 : (spec.cubeSpecs.2).isSpatialJunction = true
        · simp only [hj2] at h
          exact absurd h (by simp)
        · simp only [Bool.not_eq_true] at hj2
          simp only [hj2, Bool.false_eq_true, if_false] at h
          unfold BaseSubstitutionBuilder.getSpatialJunctionArm at h
          rw [hj, hd] at h
          cases hsb : BaseSubstitutionBuilder.spatialBoundaryBasis spec.pipeKind with
          | none => rw [hsb] at h; exact absurd h (by simp)
          | some sbb =>
            rw [hsb] at h
            have hse := Except.ok.inj h
            rw [← hse]
            rfl
      · simp only [Bool.not_eq_true] at hj
        simp only [hj, Bool.false_eq_true, if_false] at h
        unfold BaseSubstitutionBuilder.getSpatialRegularPipeSubstitution at h
        by_cases hj2 : (spec.cubeSpecs.2).isSpatialJunction = true
        · simp only [hj, hj2] at h
          exact absurd h (by simp)
        · simp only [Bool.not_eq_true] at hj2
          simp only [hj, hj2, Bool.or_self, Bool.false_eq_true, if_false] at h
          rw [hd] at h
          have hse := Except.ok.inj h
          rw [← hse]
          rfl

/-- Witness for claim C3's amended theorem at a concrete temporal pipe. -/
theorem claim3_substitution_layer_keys_witness :
    substKeys
        { src := [(-1, mapValues getPlaquette (getMemoryQubitRPNGDescriptions
            ZObservableOrientation.HORIZONTAL none none))],
          dst := [(0, mapValues getPlaquette (getMemoryQubitRPNGDescriptions
            ZObservableOrientation.HORIZONTAL none none))] } = ([-1], [0]) :=
  (claim3_substitution_layer_keys temporalPipeSpec _ rfl).1 rfl

/-- Claim C8: the block builder raises a descriptive `TQECException` for a
Port cube specification and a `NotImplementedError` for a Y-cube one; in
neither case is a compiled block produced. -/
theorem claim8_port_ycube_rejected (s₁ s₂ : CubeSpec)
    (h₁ : s₁.kind = CubeKind.port) (h₂ : s₂.kind = CubeKind.yCube) :
    BaseBlockBuilder.buildBlock s₁ = .error (.tqecException
      "Cannot build a block for a Port.") ∧
    BaseBlockBuilder.buildBlock s₂ = .error (.notImplementedError
      "Y cube is not implemented.") := by
  constructor
  · unfold BaseBlockBuilder.buildBlock
    rw [h₁]
  · unfold BaseBlockBuilder.buildBlock
    rw [h₂]

/-- Witness for claim C8's theorem at concrete Port and Y-cube specs. -/
theorem claim8_port_ycube_rejected_witness :
    BaseBlockBuilder.buildBlock { kind := .port, junctionArms := [] } =
      .error (.tqecException "Cannot build a block for a Port.") ∧
    BaseBlockBuilder.buildBlock { kind := .yCube, junctionArms := [] } =
      .error (.notImplementedError "Y cube is not implemented.") :=
  claim8_port_ycube_rejected
    { kind := .port, junctionArms := [] }
    { kind := .yCube, junctionArms := [] } rfl rfl

end Tqec
